import Mathlib

/-!
Shallow embedding of the validator synchronization pipeline
(`src/service/blockchain_service.py`) and proofs about the frozen claims.

Modelling conventions:
* Python's `Result(success, data, error)` becomes the `Result` structure.
* HTTP responses and subprocess outputs are inputs to the embedded
  functions (the network and the external tool are oracles).
* Python exceptions that escape a function are modelled with `Except PyExc`.
  In particular, `str.decode` does not exist on Python 3 strings, so the
  `except subprocess.CalledProcessError` handlers (which interpolate
  `e.stdout.decode()`) raise `AttributeError`; a sibling `except` clause of
  the same `try` does not catch an exception raised inside another handler.
* `subprocess.run` with a `None` argument raises `TypeError` before any
  process is spawned.
* The persistence store is modelled as a list of rows plus a write log;
  store writes themselves always succeed in the model.
-/

namespace BlockchainService

/-- Python `Result` class: `success`, optional `data`, optional `error`. -/
structure Result (α : Type) where
  success : Bool
  data : Option α
  error : Option String
deriving DecidableEq, Repr

/-- Python exceptions that can escape the embedded functions. -/
inductive PyExc where
  | attributeError (msg : String)
  | typeError (msg : String)
deriving DecidableEq, Repr

/-- Captured output of a finished subprocess invocation. -/
structure ProcOutput where
  exitCode : Nat
  stdout : String
  stderr : String
deriving DecidableEq, Repr

/-- Message of the `AttributeError` raised by `e.stdout.decode()` in the
`CalledProcessError` handlers: with `text=True`, `e.stdout` is a `str`,
and Python 3 `str` has no `decode` attribute. -/
def decodeErrMsg : String := "AttributeError: str object has no attribute decode"

/-- Message of the `TypeError` raised by `subprocess.run` when the argument
list contains `None` (an unresolved `validator_address`). -/
def noneArgErrMsg : String := "TypeError: expected str, bytes or os.PathLike object, not NoneType"

/-- `str.decode` on a Python 3 `str`: always raises `AttributeError`. -/
def str_decode (_s : String) : Except PyExc String :=
  .error (.attributeError decodeErrMsg)

/-! ### Height probe: `fetch_height` -/

/-- The fields the code reads from `data["result"]["sync_info"]` via `.get`
with defaults: each is `none` when the key is absent. -/
structure SyncInfoJson where
  latest_block_height : Option Int
  catching_up : Option Bool
deriving DecidableEq, Repr

/-- The parts of the `/status` response body that `fetch_height` inspects:
`result_sync_info` is `some` exactly when `"result" in data` and
`"sync_info" in data["result"]`. -/
structure StatusBody where
  result_sync_info : Option SyncInfoJson
deriving DecidableEq, Repr

/-- Outcome of `session.get(...)` + `response.raise_for_status()` +
`response.json()` for the status endpoint.  `netFailure` models a network
error or HTTP error status after retries (`str(e)` is the message);
`badJson` models a body that is not parseable JSON (the
`json.JSONDecodeError` text); `ok` carries the parsed body. -/
inductive HttpResp where
  | netFailure (msg : String)
  | badJson (msg : String)
  | ok (body : StatusBody)
deriving DecidableEq, Repr

/-- Fixed message of the structure check in `fetch_height`. -/
def fetchHeightStructureMsg : String :=
  "fetch_height error: JSON data does not contain the required structure."

/-- `fetch_height`: one GET to the status endpoint; on the expected shape
returns `(int(sync_info.get("latest_block_height", 0)),
bool(sync_info.get("catching_up", False)))`; any exception is caught and
turned into a failed `Result` carrying `str(e)`. -/
def fetch_height (resp : HttpResp) : Result (Int × Bool) :=
  match resp with
  | .netFailure msg => ⟨false, none, some msg⟩
  | .badJson msg => ⟨false, none, some msg⟩
  | .ok body =>
    match body.result_sync_info with
    | some sync_info =>
      ⟨true, some (sync_info.latest_block_height.getD 0, sync_info.catching_up.getD false), none⟩
    | none => ⟨false, none, some fetchHeightStructureMsg⟩

/-! ### Validator set fetcher: `fetch_validators` -/

/-- One entry of a validators page: `(validator["address"],
validator["voting_power"])`. -/
abbrev RawEntry := String × Int

/-- Outcome of one `GET validators?height=...&page=...&per_page=...`:
`err` models any exception (network error, bad HTTP status, unparseable
JSON, missing `total` key, ...) caught by the generic handler with message
`str(e)`; `badShape` models a parsed body failing the
`"result" in data and "validators" in data["result"]` check; `page` carries
the entry list and `int(data["result"]["total"])`. -/
inductive PageResp where
  | err (msg : String)
  | badShape
  | page (validators : List RawEntry) (total : Int)
deriving DecidableEq, Repr

/-- Fixed message of the structure check in `fetch_validators`. -/
def fetchValidatorsStructureMsg : String :=
  "fetch_validators error: JSON data does not contain the required structure."

/-- Result of running the `while True` pagination loop with a fuel bound:
`diverges` means the loop was still running when the fuel ran out. -/
inductive FetchOut where
  | result (r : Result (List RawEntry))
  | diverges
deriving DecidableEq, Repr

/-- The body of the `while True` loop of `fetch_validators`.  The server is
an oracle from `(page, per_page)` to the response; the loop always requests
`per_page = 100`, extends the accumulator with the page entries and stops
as soon as `len(validators_info) >= total_validators`. -/
def fetch_go (server : Nat → Nat → PageResp) : Nat → Nat → List RawEntry → FetchOut
  | 0, _, _ => .diverges
  | fuel + 1, page, acc =>
    match server page 100 with
    | .err msg => .result ⟨false, none, some msg⟩
    | .badShape => .result ⟨false, none, some fetchValidatorsStructureMsg⟩
    | .page vs total =>
      let acc2 := acc ++ vs
      if (acc2.length : Int) ≥ total then .result ⟨true, some acc2, none⟩
      else fetch_go server fuel (page + 1) acc2

/-- `fetch_validators`: page from 1 with fixed page size 100. -/
def fetch_validators (server : Nat → Nat → PageResp) (fuel : Nat) : FetchOut :=
  fetch_go server fuel 1 []

/-! ### Text scraping helpers (the `re.search` / `in` idioms of the source) -/

/-- Python substring test `needle in hay` (for nonempty needles). -/
def containsSub (needle : List Char) : List Char → Bool
  | [] => needle.isEmpty
  | c :: rest => needle.isPrefixOf (c :: rest) || containsSub needle rest

/-- `re.search(lit + capture, hay)`: scan left to right for the first
position where the literal `lit` occurs and the capture function succeeds
on the remainder; like `re.search`, on a failed capture the scan resumes
one character further. -/
def reSearch (lit : List Char) (capture : List Char → Option (List Char)) :
    List Char → Option (List Char)
  | [] => none
  | c :: rest =>
    match (if lit.isPrefixOf (c :: rest) then capture ((c :: rest).drop lit.length) else none) with
    | some r => some r
    | none => reSearch lit capture rest

/-- Capture of a greedy `(.*)` group: everything up to the next newline or
the end of the text (`.` never matches a newline). -/
def lineCapture (s : List Char) : Option (List Char) :=
  some (s.takeWhile (fun c => c ≠ '\n'))

/-- Capture of a lazy `(.*?)` group followed by a literal `"`:
the shortest run of non-newline characters ending at a double quote. -/
def quotedCapture (s : List Char) : Option (List Char) :=
  let cap := s.takeWhile (fun c => c ≠ '"' && c ≠ '\n')
  match s.drop cap.length with
  | '"' :: _ => some cap
  | _ => none

/-- Capture of a lazy `(.*?)` group followed by a literal newline. -/
def toNewlineCapture (s : List Char) : Option (List Char) :=
  let cap := s.takeWhile (fun c => c ≠ '\n')
  match s.drop cap.length with
  | '\n' :: _ => some cap
  | _ => none

/-- Capture of a `([\d.]+)` group: a nonempty run of digits and dots. -/
def numCapture (s : List Char) : Option (List Char) :=
  let cap := s.takeWhile (fun c => c.isDigit || c = '.')
  if cap.isEmpty then none else some cap

/-! ### External resolver adapter -/

/-- `{"validator_address": ..., "consensus_key": ...}` parsed by
`parse_tm_address`. -/
structure ResolvedIdentity where
  validator_address : String
  consensus_key : String
deriving DecidableEq, Repr

/-- Fixed message of the length validation in `parse_tm_address`. -/
def invalidLengthMsg : String :=
  "Invalid Tendermint address length. Expected length is 40 characters."

/-- `parse_tm_address` (identity resolution).  Validates only the length of
the tendermint address, then runs `namadac find-validator` (the oracle
`proc` is what `subprocess.run` captures for that command) and scrapes two
patterns.  The second component records whether the external tool was
invoked.  A non-zero exit raises `CalledProcessError`, whose handler
interpolates `e.stdout.decode()` and therefore raises `AttributeError`. -/
def parse_tm_address (tm_address : String) (proc : ProcOutput) :
    Except PyExc (Result ResolvedIdentity) × Bool :=
  if tm_address.length ≠ 40 then
    (.ok ⟨false, none, some invalidLengthMsg⟩, false)
  else
    if proc.exitCode ≠ 0 then
      (match str_decode proc.stdout with
       | .error e => (.error e, true)
       | .ok out1 =>
         match str_decode proc.stderr with
         | .error e => (.error e, true)
         | .ok out2 =>
           (.ok ⟨false, none, some ("Command execution failed: " ++ out1 ++ " " ++ out2)⟩, true))
    else
      let output := proc.stdout.toList
      let validator_address_match :=
        reSearch "Found validator address \"".toList quotedCapture output
      let consensus_key_match := reSearch "Consensus key: ".toList toNewlineCapture output
      match validator_address_match, consensus_key_match with
      | some va, some ck => (.ok ⟨true, some ⟨String.mk va, String.mk ck⟩, none⟩, true)
      | _, _ =>
        (.ok ⟨false, none,
          some "parse_tm_address error: Unable to parse validator address or consensus key."⟩, true)

/-- The five required metadata fields. -/
structure Metadata where
  email : String
  website : String
  discord_handle : String
  avatar : String
  commission_rate : String
deriving DecidableEq, Repr

/-- The five `re.search(...).group(1)` extractions of
`fetch_validator_metadata`, in evaluation order: the first one whose search
returns `None` raises `AttributeError` (caught by the function), so the
whole dictionary exists only if all five match. -/
def metadataOf (output : List Char) : Option Metadata := do
  let email ← reSearch "Email: ".toList lineCapture output
  let website ← reSearch "Website: ".toList lineCapture output
  let discord_handle ← reSearch "Discord handle: ".toList lineCapture output
  let avatar ← reSearch "Avatar: ".toList lineCapture output
  let commission_rate ← reSearch "commission rate: ".toList numCapture output
  pure ⟨String.mk email, String.mk website, String.mk discord_handle,
    String.mk avatar, String.mk commission_rate⟩

/-- Fixed message of the metadata parse failure branch. -/
def mdParseErrMsg : String :=
  "fetch_validator_metadata error: Failed to parse some or all validator metadata"

/-- `fetch_validator_metadata`.  The row value `validator_address` may be
SQL `NULL` (Python `None`), in which case `subprocess.run` raises
`TypeError`; `tool` maps a non-null address to the captured subprocess
output of `namadac validator-metadata`.  A missing field is an
`AttributeError` raised in the `try` body, caught by the
`except AttributeError` clause; a non-zero exit raises `AttributeError`
from `e.stdout.decode()` inside the `CalledProcessError` handler, which no
sibling clause catches. -/
def fetch_validator_metadata (validator_address : Option String)
    (tool : String → ProcOutput) : Except PyExc (Result Metadata) :=
  match validator_address with
  | none => .error (.typeError noneArgErrMsg)
  | some addr =>
    let proc := tool addr
    if proc.exitCode ≠ 0 then
      match str_decode proc.stdout with
      | .error e => .error e
      | .ok out1 =>
        match str_decode proc.stderr with
        | .error e => .error e
        | .ok out2 =>
          .ok ⟨false, none, some ("Command execution failed: " ++ out1 ++ " " ++ out2)⟩
    else
      match metadataOf proc.stdout.toList with
      | some m => .ok ⟨true, some m, none⟩
      | none => .ok ⟨false, none, some mdParseErrMsg⟩

/-- The four recognized phrases of `fetch_validator_state`, in the order
the source tests them. -/
def consensusPhrase : List Char := "is in the consensus set".toList

def belowThresholdPhrase : List Char := "is in the below-threshold set".toList

def jailedPhrase : List Char := "is jailed".toList

def absentPhrase : List Char :=
  "is either not a validator, or an epoch before the current epoch has been queried".toList

/-- Fixed message of the no-phrase-matched branch. -/
def stateParseErrMsg : String := "fetch_validator_state error: Unable to determine validator state"

/-- `fetch_validator_state` (status resolution): runs
`namadac validator-state` and matches the output against the four phrases
with if/elif priority; no match is a failed `Result`.  `None` address and
non-zero exit behave as in `fetch_validator_metadata`. -/
def fetch_validator_state (validator_address : Option String)
    (tool : String → ProcOutput) : Except PyExc (Result String) :=
  match validator_address with
  | none => .error (.typeError noneArgErrMsg)
  | some addr =>
    let proc := tool addr
    if proc.exitCode ≠ 0 then
      match str_decode proc.stdout with
      | .error e => .error e
      | .ok out1 =>
        match str_decode proc.stderr with
        | .error e => .error e
        | .ok out2 =>
          .ok ⟨false, none, some ("Command execution failed: " ++ out1 ++ " " ++ out2)⟩
    else
      let output := proc.stdout.toList
      if containsSub consensusPhrase output then .ok ⟨true, some "active", none⟩
      else if containsSub belowThresholdPhrase output then .ok ⟨true, some "inactive", none⟩
      else if containsSub jailedPhrase output then .ok ⟨true, some "jailed", none⟩
      else if containsSub absentPhrase output then .ok ⟨true, some "none", none⟩
      else .ok ⟨false, none, some stateParseErrMsg⟩

/-! ### Persistence model and reconciliation passes -/

/-- A row of the `validators` table (schema from `initialize_database`).
Nullable columns are `Option`; the `FLOAT` column `commission_rate` is
modelled by its textual value as written by the metadata pass. -/
structure ValidatorRecord where
  validator_id : Nat
  validator_address : Option String
  tendermint_address : String
  consensus_key : Option String
  voting_power : Option Int
  email : Option String
  website : Option String
  discord_handle : Option String
  avatar : Option String
  commission_rate : Option String
  status : Option String
deriving DecidableEq, Repr

/-- Write log entries against the Persistence Store. -/
inductive DbWrite where
  | insertValidator (tendermint_address : String) (voting_power : Int)
  | updateVotingPower (tendermint_address : String) (voting_power : Int)
  | updateAddress (validator_id : Nat) (validator_address consensus_key : String)
  | updateMetadataFields (validator_id : Nat) (m : Metadata)
  | updateStatusField (validator_id : Nat) (status : String)
deriving DecidableEq, Repr

/-- The upsert loop of `update_blockchain_data`: for each fetched entry,
`SELECT ... WHERE tendermint_address = %s`; update `voting_power` if a row
exists (the update is keyed by `tendermint_address`), otherwise insert a
new row with only `tendermint_address` and `voting_power` set.  Store
errors (caught per entry in the source) are not modelled: writes succeed. -/
def upsert_validators (entries : List RawEntry) (rows : List ValidatorRecord) (nextId : Nat) :
    List ValidatorRecord × Nat × List DbWrite :=
  match entries with
  | [] => (rows, nextId, [])
  | (addr, power) :: rest =>
    if rows.any (fun r => r.tendermint_address = addr) then
      let rows2 := rows.map
        (fun r => if r.tendermint_address = addr then { r with voting_power := some power } else r)
      let out := upsert_validators rest rows2 nextId
      (out.1, out.2.1, .updateVotingPower addr power :: out.2.2)
    else
      let newRec : ValidatorRecord :=
        ⟨nextId, none, addr, none, some power, none, none, none, none, none, none⟩
      let out := upsert_validators rest (rows ++ [newRec]) (nextId + 1)
      (out.1, out.2.1, .insertValidator addr power :: out.2.2)

/-- The identity pass `update_address`: for every row, resolve the
tendermint address; on a successful `Result`, write
`validator_address`/`consensus_key` keyed by `validator_id`; on a failed
`Result`, log and continue.  An escaping Python exception aborts the loop:
the remaining rows stay unchanged and the exception is reported. -/
def update_address (tool : String → ProcOutput) :
    List ValidatorRecord → List ValidatorRecord × List DbWrite × Option PyExc
  | [] => ([], [], none)
  | r :: rest =>
    match parse_tm_address r.tendermint_address (tool r.tendermint_address) with
    | (.error e, _) => (r :: rest, [], some e)
    | (.ok res, _) =>
      match res.success, res.data with
      | true, some d =>
        let r2 := { r with validator_address := some d.validator_address,
                           consensus_key := some d.consensus_key }
        let out := update_address tool rest
        (r2 :: out.1, .updateAddress r.validator_id d.validator_address d.consensus_key :: out.2.1,
          out.2.2)
      | true, none => (r :: rest, [], some (.typeError noneArgErrMsg))
      | false, _ =>
        let out := update_address tool rest
        (r :: out.1, out.2.1, out.2.2)

/-- The metadata pass `update_metadata`: `SELECT` has no filter, so every
row is attempted, whatever its `validator_address`; on a successful
`Result`, write the five metadata fields keyed by `validator_id`; on a
failed `Result`, log and continue; an escaping exception aborts the
loop. -/
def update_metadata (tool : String → ProcOutput) :
    List ValidatorRecord → List ValidatorRecord × List DbWrite × Option PyExc
  | [] => ([], [], none)
  | r :: rest =>
    match fetch_validator_metadata r.validator_address tool with
    | .error e => (r :: rest, [], some e)
    | .ok res =>
      match res.success, res.data with
      | true, some m =>
        let r2 := { r with email := some m.email, website := some m.website,
                           discord_handle := some m.discord_handle, avatar := some m.avatar,
                           commission_rate := some m.commission_rate }
        let out := update_metadata tool rest
        (r2 :: out.1, .updateMetadataFields r.validator_id m :: out.2.1, out.2.2)
      | true, none => (r :: rest, [], some (.typeError noneArgErrMsg))
      | false, _ =>
        let out := update_metadata tool rest
        (r :: out.1, out.2.1, out.2.2)

/-- The status pass `update_status`: same shape as the metadata pass, with
the single `status` column written on success. -/
def update_status (tool : String → ProcOutput) :
    List ValidatorRecord → List ValidatorRecord × List DbWrite × Option PyExc
  | [] => ([], [], none)
  | r :: rest =>
    match fetch_validator_state r.validator_address tool with
    | .error e => (r :: rest, [], some e)
    | .ok res =>
      match res.success, res.data with
      | true, some st =>
        let r2 := { r with status := some st }
        let out := update_status tool rest
        (r2 :: out.1, .updateStatusField r.validator_id st :: out.2.1, out.2.2)
      | true, none => (r :: rest, [], some (.typeError noneArgErrMsg))
      | false, _ =>
        let out := update_status tool rest
        (r :: out.1, out.2.1, out.2.2)

/-- Cycle-level outcomes of `update_blockchain_data` (the Python function
always returns `None`; these distinguish the exit paths). -/
inductive CycleOutcome where
  | aborted_probe
  | noop_syncing
  | aborted_fetch
  | fuel_exhausted
  | completed
  | crashed (e : PyExc)
deriving DecidableEq, Repr

/-- One reconciliation cycle `update_blockchain_data`: probe the height,
abort cleanly while syncing, fetch the validator set, upsert, then run the
three enrichment passes.  An exception escaping a pass escapes the whole
function (there is no handler around the pass calls).  Returns the final
rows, the full write log and the outcome. -/
def update_blockchain_data (heightResp : HttpResp) (server : Int → Nat → Nat → PageResp)
    (fuel : Nat) (idTool mdTool stTool : String → ProcOutput)
    (rows : List ValidatorRecord) (nextId : Nat) :
    List ValidatorRecord × List DbWrite × CycleOutcome :=
  let hres := fetch_height heightResp
  if hres.success then
    match hres.data with
    | none => (rows, [], .crashed (.typeError noneArgErrMsg))
    | some (height, syncing) =>
      if syncing then (rows, [], .noop_syncing)
      else
        match fetch_validators (server height) fuel with
        | .diverges => (rows, [], .fuel_exhausted)
        | .result vres =>
          if vres.success then
            match vres.data with
            | none => (rows, [], .crashed (.typeError noneArgErrMsg))
            | some entries =>
              let up := upsert_validators entries rows nextId
              let pa := update_address idTool up.1
              match pa.2.2 with
              | some e => (pa.1, up.2.2 ++ pa.2.1, .crashed e)
              | none =>
                let pm := update_metadata mdTool pa.1
                match pm.2.2 with
                | some e => (pm.1, up.2.2 ++ pa.2.1 ++ pm.2.1, .crashed e)
                | none =>
                  let ps := update_status stTool pm.1
                  match ps.2.2 with
                  | some e => (ps.1, up.2.2 ++ pa.2.1 ++ pm.2.1 ++ ps.2.1, .crashed e)
                  | none => (ps.1, up.2.2 ++ pa.2.1 ++ pm.2.1 ++ ps.2.1, .completed)
          else (rows, [], .aborted_fetch)
  else (rows, [], .aborted_probe)

/-! ### Concrete fixtures used by the claim theorems -/

/-- Total page length of a list of validator pages. -/
def pagesLen (ps : List (List RawEntry)) : Nat := (ps.map List.length).sum

/-- A 40-character all-lowercase-hex tendermint address. -/
def addrA : String := String.mk (List.replicate 40 'a')

/-- A second 40-character tendermint address (hex as well). -/
def addrB : String := String.mk (List.replicate 40 'b')

/-- A 40-character string made of a non-hex letter. -/
def zAddr : String := String.mk (List.replicate 40 'z')

/-- A server whose two structurally well-formed pages sum exactly to the
declared total 2 but repeat the same validator address. -/
def dupServer : Nat → Nat → PageResp := fun page _ =>
  if page = 1 then .page [("A", 1)] 2
  else if page = 2 then .page [("A", 2)] 2
  else .err "no page"

/-- A server whose reported total shrinks below the accumulated count:
page 1 carries two entries with total 3, page 2 is empty with total 1. -/
def shrinkServer : Nat → Nat → PageResp := fun page _ =>
  if page = 1 then .page [("A", 1), ("B", 2)] 3
  else if page = 2 then .page [] 1
  else .err "no page"

/-- A server that forever answers a well-formed empty page with total 5. -/
def emptyPageServer : Nat → Nat → PageResp := fun _ _ => .page [] 5

/-- A status response whose `sync_info` is present but empty: both inner
fields are absent. -/
def emptySyncResp : HttpResp := .ok ⟨some ⟨none, none⟩⟩

/-- A status response reporting height 7 and `catching_up = true`. -/
def syncingResp : HttpResp := .ok ⟨some ⟨some 7, some true⟩⟩

/-- A status response reporting height 5 and `catching_up = false`. -/
def caughtUpResp : HttpResp := .ok ⟨some ⟨some 5, some false⟩⟩

/-- A server answering one well-formed page with both fixture validators. -/
def pairServer : Int → Nat → Nat → PageResp := fun _ page _ =>
  if page = 1 then .page [(addrA, 10), (addrB, 20)] 2 else .err "no page"

/-- An identity tool resolving `addrA` to `va1`/`ck1` and everything else
to `va2`/`ck2`, exiting 0. -/
def idToolAB : String → ProcOutput := fun tm =>
  if tm = addrA then ⟨0, "Found validator address \"va1\"\nConsensus key: ck1\n", ""⟩
  else ⟨0, "Found validator address \"va2\"\nConsensus key: ck2\n", ""⟩

/-- A metadata tool whose output parses no field (every call is a
`Result` failure, which the pass skips). -/
def mdToolEmpty : String → ProcOutput := fun _ => ⟨0, "", ""⟩

/-- A status tool that exits 1 for `va1` and reports a jailed validator
for every other address. -/
def stToolFailA : String → ProcOutput := fun va =>
  if va = "va1" then ⟨1, "boom", "err"⟩ else ⟨0, "x is jailed", ""⟩

/-- A subprocess output with a non-zero exit code. -/
def failProc : ProcOutput := ⟨1, "out", "err"⟩

/-- A subprocess output whose text contains both the consensus-set phrase
and the jailed phrase. -/
def mixedStateOut : String := "x is in the consensus set but is jailed"

/-- A subprocess output matching none of the four recognized phrases. -/
def gibberishOut : String := "gibberish"

/-- A persisted row whose `validator_address` is still SQL `NULL`. -/
def nullAddrRec : ValidatorRecord :=
  ⟨1, none, addrA, none, some 10, none, none, none, none, none, none⟩

/-- A persisted row with a resolved `validator_address` `va1`. -/
def recVa1 : ValidatorRecord :=
  ⟨1, some "va1", addrA, some "ck1", some 10, none, none, none, none, none, none⟩

/-- A second persisted row with a resolved `validator_address` `va2`. -/
def recVa2 : ValidatorRecord :=
  ⟨2, some "va2", addrB, some "ck2", some 20, none, none, none, none, none, none⟩

/-- A metadata output missing the `Website:` field. -/
def mdMissingWebsite : String := "Email: a@b.c\nDiscord handle: d\nAvatar: av\ncommission rate: 0.05\n"

/-- A tool that never gets consulted in a meaningful way. -/
def trivTool : String → ProcOutput := fun _ => ⟨0, "", ""⟩

/-- A server that always errors; the syncing cycle never reaches it. -/
def trivServer : Int → Nat → Nat → PageResp := fun _ _ _ => .err "unused"

/-- A server answering exactly one well-formed page with one entry and
total 1. -/
def oneServer : Nat → Nat → PageResp := fun page _ =>
  if page = 1 then .page [("A", 10)] 1 else .err "no page"

/-- `pagesLen` distributes over cons. -/
theorem pagesLen_cons (p : List RawEntry) (ps : List (List RawEntry)) :
    pagesLen (p :: ps) = p.length + pagesLen ps := by
  simp [pagesLen]

/-! ### Claim C1 -/

/-- C1: for every reconciliation cycle in which the height probe succeeds
and reports `catchingUp = true`, the cycle aborts cleanly (a no-op outcome,
not an error or a crash) before the fetch, upsert and enrichment steps, and
performs zero writes to the Persistence Store: the write log is empty and
the rows are unchanged. -/
theorem C1_syncing_cycle_clean_noop_zero_writes (heightResp : HttpResp)
    (server : Int → Nat → Nat → PageResp) (fuel : Nat)
    (idTool mdTool stTool : String → ProcOutput) (rows : List ValidatorRecord) (nextId : Nat)
    (height : Int) (hprobe : fetch_height heightResp = ⟨true, some (height, true), none⟩) :
    update_blockchain_data heightResp server fuel idTool mdTool stTool rows nextId
      = (rows, [], .noop_syncing) := by
  simp [update_blockchain_data, hprobe]

/-- Witness for C1 at a concrete syncing probe response. -/
theorem C1_syncing_cycle_clean_noop_zero_writes_witness :
    update_blockchain_data syncingResp trivServer 5 trivTool trivTool trivTool [] 1
      = ([], [], .noop_syncing) :=
  C1_syncing_cycle_clean_noop_zero_writes syncingResp trivServer 5 trivTool trivTool trivTool
    [] 1 7 rfl

/-! ### Claim C10 -/

/-- C10 counterexample: a parseable body whose `result.sync_info` is
present but lacks both expected inner fields makes `fetch_height` return a
success `Result` built from the defaulted values height `0` and
`catchingUp = false`, contradicting the claim that such a body yields a
malformed-response failure and that defaults are never returned. -/
theorem C10_counterexample :
    fetch_height emptySyncResp = ⟨true, some (0, false), none⟩ := rfl

/-- C10 amended: a network failure and an unparseable-JSON body both fail
with the exception text (through the same generic handler), and a parsed
body lacking `result`/`sync_info` fails with the fixed malformed-structure
message; but when `result.sync_info` is present, missing inner fields are
defaulted to height `0` and `catchingUp = false` and the call succeeds. -/
theorem C10_amended_missing_shape_fails_missing_fields_default (msg : String)
    (body : StatusBody) (hb : body.result_sync_info = none) :
    fetch_height (.netFailure msg) = ⟨false, none, some msg⟩ ∧
    fetch_height (.badJson msg) = ⟨false, none, some msg⟩ ∧
    fetch_height (.ok body) = ⟨false, none, some fetchHeightStructureMsg⟩ ∧
    fetch_height (.ok ⟨some ⟨none, none⟩⟩) = ⟨true, some (0, false), none⟩ := by
  refine ⟨rfl, rfl, ?_, rfl⟩
  simp [fetch_height, hb]

/-- Witness for the amended C10 at a concrete body with no `result` key. -/
theorem C10_amended_witness :
    fetch_height (.netFailure "boom") = ⟨false, none, some "boom"⟩ ∧
    fetch_height (.badJson "boom") = ⟨false, none, some "boom"⟩ ∧
    fetch_height (.ok ⟨none⟩) = ⟨false, none, some fetchHeightStructureMsg⟩ ∧
    fetch_height (.ok ⟨some ⟨none, none⟩⟩) = ⟨true, some (0, false), none⟩ :=
  C10_amended_missing_shape_fails_missing_fields_default "boom" ⟨none⟩ rfl

/-! ### Claim C9 -/

/-- C9 counterexample: a 40-character string of the non-hex letter `z` is
not "exactly 40 hex characters", yet `parse_tm_address` does not fail fast:
it invokes the external tool (second component `true`) and returns the
parse-failure `Result`, not the validation error. -/
theorem C9_counterexample :
    (parse_tm_address zAddr ⟨0, "", ""⟩).2 = true ∧
    zAddr.length = 40 ∧
    zAddr.toList.all (fun c => c.isDigit || ('a' ≤ c && c ≤ 'f') || ('A' ≤ c && c ≤ 'F')) = false
    := by decide

/-- C9 amended: the input validation of `resolveIdentity` checks only the
length: every string whose length is not 40 fails fast with the validation
error and the external process is not invoked; every string of length
exactly 40 — hex or not — passes validation and proceeds to invoke the
tool. -/
theorem C9_amended_length_only_validation :
    (∀ (s : String) (proc : ProcOutput), s.length ≠ 40 →
      parse_tm_address s proc = (.ok ⟨false, none, some invalidLengthMsg⟩, false)) ∧
    (∀ (s : String) (proc : ProcOutput), s.length = 40 →
      (parse_tm_address s proc).2 = true) := by
  constructor
  · intro s proc h
    simp [parse_tm_address, h]
  · intro s proc h
    by_cases hp : proc.exitCode ≠ 0
    · simp [parse_tm_address, h, hp, str_decode]
    · simp only [parse_tm_address, h, hp]
      simp only [ne_eq, not_true_eq_false, if_false, if_neg hp]
      split <;> rfl

/-- Witness for the amended C9: a short string is rejected without
invocation; the 40-character all-lowercase-hex `addrA` is passed on to the
tool. -/
theorem C9_amended_witness :
    parse_tm_address "abc" ⟨0, "", ""⟩ = (.ok ⟨false, none, some invalidLengthMsg⟩, false) ∧
    (parse_tm_address addrA ⟨0, "", ""⟩).2 = true :=
  ⟨C9_amended_length_only_validation.1 "abc" ⟨0, "", ""⟩ (by decide),
   C9_amended_length_only_validation.2 addrA ⟨0, "", ""⟩ (by decide)⟩

/-! ### Claim C5 -/

/-- C5 (code bug): when the subprocess exits non-zero, none of the three
resolver operations returns a failure `Result` carrying the captured
stdout/stderr; instead the `CalledProcessError` handler itself calls
`e.stdout.decode()` on a `str` (the functions pass `text=True`), raising an
`AttributeError` that escapes all three functions — the sibling
`except AttributeError` clause of `fetch_validator_metadata` does not catch
an exception raised inside another handler of the same `try`. -/
theorem C5_nonzero_exit_raises_attribute_error :
    (parse_tm_address addrA failProc).1 = .error (.attributeError decodeErrMsg) ∧
    fetch_validator_metadata (some "va1") (fun _ => failProc)
      = .error (.attributeError decodeErrMsg) ∧
    fetch_validator_state (some "va1") (fun _ => failProc)
      = .error (.attributeError decodeErrMsg) := ⟨rfl, rfl, rfl⟩

/-! ### Claim C4 -/

/-- C4 (code bug): in a cycle whose probe and fetch succeed, one
validator's `ExternalToolFailure` (non-zero exit) during the status pass
does abort the whole pass and the cycle: the `AttributeError` raised in the
`CalledProcessError` handler escapes, the cycle crashes, and the second
validator — whose tool output parses to `jailed` — is left with its status
still `NULL` instead of being updated. -/
theorem C4_status_tool_failure_crashes_cycle :
    (update_blockchain_data caughtUpResp pairServer 5 idToolAB mdToolEmpty stToolFailA [] 1).2.2
      = .crashed (.attributeError decodeErrMsg) ∧
    (update_blockchain_data caughtUpResp pairServer 5 idToolAB mdToolEmpty stToolFailA [] 1).1.map
      ValidatorRecord.status = [none, none] ∧
    fetch_validator_state (some "va2") stToolFailA = .ok ⟨true, some "jailed", none⟩ :=
  ⟨rfl, by decide, rfl⟩

/-! ### Claim C8 -/

/-- C8 counterexample: a persisted row whose `validator_address` is still
`NULL` is not skipped by the metadata pass or the status pass: both passes
attempt it, `subprocess.run` raises `TypeError` on the `None` argument, and
the pass aborts with that exception. -/
theorem C8_counterexample :
    update_metadata trivTool [nullAddrRec]
      = ([nullAddrRec], [], some (.typeError noneArgErrMsg)) ∧
    update_status trivTool [nullAddrRec]
      = ([nullAddrRec], [], some (.typeError noneArgErrMsg)) := ⟨rfl, rfl⟩

/-- C8 amended: the `SELECT` of both passes has no filter, so every
persisted record is attempted regardless of `validator_address`; a record
whose `validator_address` is `NULL` is not skipped — the resolver
invocation raises `TypeError` and aborts the rest of the pass, leaving all
rows unchanged. -/
theorem C8_amended_null_address_not_skipped (tool : String → ProcOutput)
    (rec : ValidatorRecord) (rest : List ValidatorRecord)
    (h : rec.validator_address = none) :
    update_metadata tool (rec :: rest) = (rec :: rest, [], some (.typeError noneArgErrMsg)) ∧
    update_status tool (rec :: rest) = (rec :: rest, [], some (.typeError noneArgErrMsg)) := by
  constructor
  · simp [update_metadata, fetch_validator_metadata, h]
  · simp [update_status, fetch_validator_state, h]

/-- Witness for the amended C8 at the concrete `NULL`-address row. -/
theorem C8_amended_witness :
    update_metadata trivTool (nullAddrRec :: [recVa1])
      = (nullAddrRec :: [recVa1], [], some (.typeError noneArgErrMsg)) ∧
    update_status trivTool (nullAddrRec :: [recVa1])
      = (nullAddrRec :: [recVa1], [], some (.typeError noneArgErrMsg)) :=
  C8_amended_null_address_not_skipped trivTool nullAddrRec [recVa1] rfl

/-! ### Claim C6 -/

/-- C6 counterexample: an output that contains the phrase `is jailed` but
also contains the consensus-set phrase is mapped to `active`, not `jailed`:
the four textual patterns are not mutually exclusive and the source tests
them in if/elif priority order, so "output containing `is jailed` yields
status jailed" fails as a universal statement. -/
theorem C6_counterexample :
    fetch_validator_state (some "va1") (fun _ => ⟨0, mixedStateOut, ""⟩)
      = .ok ⟨true, some "active", none⟩ ∧
    containsSub jailedPhrase mixedStateOut.toList = true := ⟨rfl, by decide⟩

/-- C6 amended: `resolveState` matches the four phrases in the fixed
priority order consensus-set, below-threshold, jailed, recognized-absent;
an output containing `is jailed` yields `jailed` provided no
higher-priority phrase also occurs; the recognized-absent phrase yields
success with value `none` when no earlier phrase occurs; an output
containing none of the four phrases yields the parse-failure `Result`
(distinct from the value `none`), and on that failure the status pass
leaves the stored record unchanged and continues with the remaining
rows. -/
theorem C6_amended_state_phrase_priority (addr : String) (p : ProcOutput)
    (hexit : p.exitCode = 0) :
    (containsSub consensusPhrase p.stdout.toList = true →
      fetch_validator_state (some addr) (fun _ => p) = .ok ⟨true, some "active", none⟩) ∧
    (containsSub consensusPhrase p.stdout.toList = false →
      containsSub belowThresholdPhrase p.stdout.toList = true →
      fetch_validator_state (some addr) (fun _ => p) = .ok ⟨true, some "inactive", none⟩) ∧
    (containsSub consensusPhrase p.stdout.toList = false →
      containsSub belowThresholdPhrase p.stdout.toList = false →
      containsSub jailedPhrase p.stdout.toList = true →
      fetch_validator_state (some addr) (fun _ => p) = .ok ⟨true, some "jailed", none⟩) ∧
    (containsSub consensusPhrase p.stdout.toList = false →
      containsSub belowThresholdPhrase p.stdout.toList = false →
      containsSub jailedPhrase p.stdout.toList = false →
      containsSub absentPhrase p.stdout.toList = true →
      fetch_validator_state (some addr) (fun _ => p) = .ok ⟨true, some "none", none⟩) ∧
    (containsSub consensusPhrase p.stdout.toList = false →
      containsSub belowThresholdPhrase p.stdout.toList = false →
      containsSub jailedPhrase p.stdout.toList = false →
      containsSub absentPhrase p.stdout.toList = false →
      fetch_validator_state (some addr) (fun _ => p) = .ok ⟨false, none, some stateParseErrMsg⟩ ∧
      ∀ (tool : String → ProcOutput) (rec : ValidatorRecord) (rest : List ValidatorRecord),
        rec.validator_address = some addr → tool addr = p →
        update_status tool (rec :: rest)
          = (rec :: (update_status tool rest).1, (update_status tool rest).2.1,
             (update_status tool rest).2.2)) := by
  refine ⟨?_, ?_, ?_, ?_, ?_⟩
  · intro h1
    simp only [String.toList] at h1
    simp [fetch_validator_state, hexit, h1]
  · intro h1 h2
    simp only [String.toList] at h1 h2
    simp [fetch_validator_state, hexit, h1, h2]
  · intro h1 h2 h3
    simp only [String.toList] at h1 h2 h3
    simp [fetch_validator_state, hexit, h1, h2, h3]
  · intro h1 h2 h3 h4
    simp only [String.toList] at h1 h2 h3 h4
    simp [fetch_validator_state, hexit, h1, h2, h3, h4]
  · intro h1 h2 h3 h4
    simp only [String.toList] at h1 h2 h3 h4
    have hfail : fetch_validator_state (some addr) (fun _ => p)
        = .ok ⟨false, none, some stateParseErrMsg⟩ := by
      simp [fetch_validator_state, hexit, h1, h2, h3, h4]
    refine ⟨hfail, ?_⟩
    intro tool rec rest hrec htool
    have hstate : fetch_validator_state rec.validator_address tool
        = .ok ⟨false, none, some stateParseErrMsg⟩ := by
      rw [hrec]
      simp [fetch_validator_state, htool, hexit, h1, h2, h3, h4]
    simp [update_status, hstate]

/-- Witness for the amended C6: the gibberish output matches no phrase,
the call fails with the parse error, and the status pass leaves the row
`recVa1` unchanged while still processing the rest of the batch. -/
theorem C6_amended_witness :
    fetch_validator_state (some "va1") (fun _ => ⟨0, gibberishOut, ""⟩)
      = .ok ⟨false, none, some stateParseErrMsg⟩ ∧
    update_status (fun _ => ⟨0, gibberishOut, ""⟩) (recVa1 :: [recVa2])
      = (recVa1 :: (update_status (fun _ => ⟨0, gibberishOut, ""⟩) [recVa2]).1,
         (update_status (fun _ => ⟨0, gibberishOut, ""⟩) [recVa2]).2.1,
         (update_status (fun _ => ⟨0, gibberishOut, ""⟩) [recVa2]).2.2) := by
  have h := (C6_amended_state_phrase_priority "va1" ⟨0, gibberishOut, ""⟩ rfl).2.2.2.2
    (by decide) (by decide) (by decide) (by decide)
  exact ⟨h.1, h.2 (fun _ => ⟨0, gibberishOut, ""⟩) recVa1 [recVa2] rfl rfl⟩

/-! ### Claim C7 -/

/-- If any one of the five field extractions fails, the whole metadata
dictionary fails to build (the first failing `.group(1)` raises
`AttributeError` before the dictionary exists). -/
theorem metadataOf_eq_none (out : List Char)
    (h : reSearch "Email: ".toList lineCapture out = none ∨
         reSearch "Website: ".toList lineCapture out = none ∨
         reSearch "Discord handle: ".toList lineCapture out = none ∨
         reSearch "Avatar: ".toList lineCapture out = none ∨
         reSearch "commission rate: ".toList numCapture out = none) :
    metadataOf out = none := by
  unfold metadataOf
  cases he : reSearch "Email: ".toList lineCapture out <;>
    cases hw : reSearch "Website: ".toList lineCapture out <;>
    cases hd : reSearch "Discord handle: ".toList lineCapture out <;>
    cases ha : reSearch "Avatar: ".toList lineCapture out <;>
    cases hc : reSearch "commission rate: ".toList numCapture out <;>
    simp_all

/-- C7: `resolveMetadata` is all-or-nothing.  For every subprocess output
in which one of the five required fields (email, website, discord handle,
avatar, commission rate) is absent, the whole call returns a failure
`Result` (the parse-failure message), and the metadata pass writes nothing
to that validator's record: the row passes through unchanged, no write is
logged for it, and the pass continues with the remaining rows. -/
theorem C7_metadata_all_or_nothing (addr : String) (p : ProcOutput)
    (tool : String → ProcOutput) (hexit : p.exitCode = 0) (htool : tool addr = p)
    (habsent : reSearch "Email: ".toList lineCapture p.stdout.toList = none ∨
               reSearch "Website: ".toList lineCapture p.stdout.toList = none ∨
               reSearch "Discord handle: ".toList lineCapture p.stdout.toList = none ∨
               reSearch "Avatar: ".toList lineCapture p.stdout.toList = none ∨
               reSearch "commission rate: ".toList numCapture p.stdout.toList = none) :
    fetch_validator_metadata (some addr) tool = .ok ⟨false, none, some mdParseErrMsg⟩ ∧
    ∀ (rec : ValidatorRecord) (rest : List ValidatorRecord),
      rec.validator_address = some addr →
      update_metadata tool (rec :: rest)
        = (rec :: (update_metadata tool rest).1, (update_metadata tool rest).2.1,
           (update_metadata tool rest).2.2) := by
  have hnone : metadataOf p.stdout.toList = none := metadataOf_eq_none p.stdout.toList habsent
  simp only [String.toList] at hnone
  have hfail : fetch_validator_metadata (some addr) tool
      = .ok ⟨false, none, some mdParseErrMsg⟩ := by
    simp [fetch_validator_metadata, htool, hexit, hnone]
  refine ⟨hfail, ?_⟩
  intro rec rest hrec
  have hcall : fetch_validator_metadata rec.validator_address tool
      = .ok ⟨false, none, some mdParseErrMsg⟩ := by rw [hrec]; exact hfail
  simp [update_metadata, hcall]

/-- Witness for C7: an output missing the `Website:` field fails the whole
metadata call, and the pass leaves the row `recVa1` unchanged while
continuing with `recVa2`. -/
theorem C7_metadata_all_or_nothing_witness :
    fetch_validator_metadata (some "va1") (fun _ => ⟨0, mdMissingWebsite, ""⟩)
      = .ok ⟨false, none, some mdParseErrMsg⟩ ∧
    ∀ (rec : ValidatorRecord) (rest : List ValidatorRecord),
      rec.validator_address = some "va1" →
      update_metadata (fun _ => ⟨0, mdMissingWebsite, ""⟩) (rec :: rest)
        = (rec :: (update_metadata (fun _ => ⟨0, mdMissingWebsite, ""⟩) rest).1,
           (update_metadata (fun _ => ⟨0, mdMissingWebsite, ""⟩) rest).2.1,
           (update_metadata (fun _ => ⟨0, mdMissingWebsite, ""⟩) rest).2.2) :=
  C7_metadata_all_or_nothing "va1" ⟨0, mdMissingWebsite, ""⟩
    (fun _ => ⟨0, mdMissingWebsite, ""⟩) rfl rfl (by right; left; decide)

/-! ### Claim C3 -/

/-- C3 counterexample: when the server-reported total shrinks below the
already-accumulated count (page 1 carries two entries with total 3, page 2
is empty with total 1), `fetch_validators` does terminate — but it returns
success with the accumulated entries, not a `PaginationInconsistency` fetch
failure as the claim states. -/
theorem C3_counterexample :
    fetch_validators shrinkServer 5 = .result ⟨true, some [("A", 1), ("B", 2)], none⟩ := by
  decide

/-- C3 amended: the loop exits as soon as a fetched page brings the
reported total to at most the accumulated count, returning success with
the accumulated entries — so a shrinking total cannot cause an infinite
loop, but it yields success, not a `PaginationInconsistency` failure.
Termination on every well-formed page sequence does not hold, however: a
server that keeps answering well-formed empty pages with positive total 5
keeps the loop running for any amount of fuel. -/
theorem C3_amended_shrunk_total_exits_with_success :
    (∀ (server : Nat → Nat → PageResp) (fuel page : Nat) (acc vs : List RawEntry) (total : Int),
      server page 100 = .page vs total → ((acc ++ vs).length : Int) ≥ total →
      fetch_go server (fuel + 1) page acc = .result ⟨true, some (acc ++ vs), none⟩) ∧
    (∀ (fuel page : Nat) (acc : List RawEntry), (acc.length : Int) < 5 →
      fetch_go emptyPageServer fuel page acc = .diverges) := by
  constructor
  · intro server fuel page acc vs total hs hge
    simp only [fetch_go, hs]
    split
    · rfl
    · rename_i h
      exact absurd hge h
  · intro fuel
    induction fuel with
    | zero => intro page acc _; rfl
    | succ n ih =>
      intro page acc hacc
      have hlt : ¬ (((acc ++ ([] : List RawEntry)).length : Int) ≥ 5) := by
        simp only [List.append_nil]
        omega
      simp only [fetch_go, emptyPageServer, if_neg hlt]
      exact ih (page + 1) (acc ++ []) (by simpa using hacc)

/-- Witness for the amended C3: at page 2 of the shrinking server the
accumulated two entries meet the reported total 1 and the loop returns
success immediately; the all-empty server diverges from the initial
state. -/
theorem C3_amended_witness :
    fetch_go shrinkServer 1 2 [("A", 1), ("B", 2)]
      = .result ⟨true, some ([("A", 1), ("B", 2)] ++ []), none⟩ ∧
    fetch_go emptyPageServer 3 1 [] = .diverges :=
  ⟨C3_amended_shrunk_total_exits_with_success.1 shrinkServer 0 2 [("A", 1), ("B", 2)] [] 1
      (by decide) (by decide),
   C3_amended_shrunk_total_exits_with_success.2 3 1 [] (by decide)⟩

/-! ### Claim C2 -/

/-- Exact-total pagination run: if the server answers well-formed pages
`ps` (one per requested page number, all declaring the same total `T`) and
the accumulated length plus the remaining page lengths is exactly `T`,
then the loop returns success with a list of length exactly `T` that is a
sublist of the accumulator followed by the concatenation of the pages. -/
theorem fetch_go_exact (server : Nat → Nat → PageResp) (T : Int) :
    ∀ (ps : List (List RawEntry)) (page : Nat) (acc : List RawEntry) (fuel : Nat),
      ps ≠ [] →
      (∀ i (h : i < ps.length), server (page + i) 100 = .page (ps.get ⟨i, h⟩) T) →
      ((acc.length : Int) + (pagesLen ps : Int) = T) →
      ps.length ≤ fuel →
      ∃ l, fetch_go server fuel page acc = .result ⟨true, some l, none⟩ ∧
        (l.length : Int) = T ∧ List.Sublist l (acc ++ ps.flatten) := by
  intro ps
  induction ps with
  | nil => intro page acc fuel hne; exact absurd rfl hne
  | cons p rest ih =>
    intro page acc fuel _ hserver hsum hfuel
    obtain ⟨f, rfl⟩ : ∃ f, fuel = f + 1 := by
      cases fuel with
      | zero => simp at hfuel
      | succ f => exact ⟨f, rfl⟩
    have hp0 : server page 100 = .page p T := by
      have h0 := hserver 0 (by simp)
      simpa using h0
    have hstep : fetch_go server (f + 1) page acc
        = (if ((acc ++ p).length : Int) ≥ T then
             FetchOut.result ⟨true, some (acc ++ p), none⟩
           else fetch_go server f (page + 1) (acc ++ p)) := by
      simp only [fetch_go, hp0]
    have e1 : (acc ++ p).length = acc.length + p.length := List.length_append acc p
    have e2 : pagesLen (p :: rest) = p.length + pagesLen rest := pagesLen_cons p rest
    by_cases hge : ((acc ++ p).length : Int) ≥ T
    · have hlen : ((acc ++ p).length : Int) = T := by omega
      refine ⟨acc ++ p, ?_, hlen, ?_⟩
      · rw [hstep, if_pos hge]
      · rw [List.flatten_cons, ← List.append_assoc]
        exact List.sublist_append_left (acc ++ p) rest.flatten
    · have hrest_ne : rest ≠ [] := by
        intro hr
        subst hr
        have e3 : pagesLen ([] : List (List RawEntry)) = 0 := rfl
        omega
      have hserver2 : ∀ i (h : i < rest.length),
          server (page + 1 + i) 100 = .page (rest.get ⟨i, h⟩) T := by
        intro i h
        have h2 : i + 1 < (p :: rest).length := by simpa using Nat.succ_lt_succ h
        have h3 := hserver (i + 1) h2
        have harith : page + (i + 1) = page + 1 + i := by omega
        rw [harith] at h3
        simpa using h3
      have hsum2 : (((acc ++ p).length : Nat) : Int) + (pagesLen rest : Int) = T := by omega
      have hfuel2 : rest.length ≤ f := by
        simpa using hfuel
      obtain ⟨l, hrun, hlen, hsub⟩ := ih (page + 1) (acc ++ p) f hrest_ne hserver2 hsum2 hfuel2
      refine ⟨l, ?_, hlen, ?_⟩
      · rw [hstep, if_neg hge]
        exact hrun
      · rw [List.flatten_cons, ← List.append_assoc]
        exact hsub

/-- C2 counterexample: two structurally well-formed pages that sum exactly
to the declared total 2 but repeat the address `"A"`: `fetch_validators`
succeeds with exactly 2 entries, yet the returned entries do contain a
duplicate `tendermintAddress` — the source performs no duplicate
detection. -/
theorem C2_counterexample :
    fetch_validators dupServer 5 = .result ⟨true, some [("A", 1), ("A", 2)], none⟩ ∧
    pagesLen [[(("A" : String), (1 : Int))], [("A", 2)]] = 2 ∧
    ¬ (([(("A" : String), (1 : Int)), ("A", 2)].map Prod.fst).Nodup) := by
  refine ⟨by decide, by decide, by decide⟩

/-- C2 amended: for every sequence of well-formed pages all declaring the
same total `T` and summing exactly to `T`, `fetch_validators` (paging from
1 with fixed page size 100) terminates with success and returns exactly
`T` entries, which form a sublist of the concatenated server pages; the
returned entries are duplicate-free in `tendermintAddress` provided the
server's concatenated pages are (the source performs no duplicate
detection of its own). -/
theorem C2_amended_exact_total_sublist_of_pages (server : Nat → Nat → PageResp)
    (ps : List (List RawEntry)) (T : Int) (fuel : Nat)
    (hne : ps ≠ [])
    (hserver : ∀ i (h : i < ps.length), server (1 + i) 100 = .page (ps.get ⟨i, h⟩) T)
    (hsum : (pagesLen ps : Int) = T)
    (hfuel : ps.length ≤ fuel) :
    ∃ l, fetch_validators server fuel = .result ⟨true, some l, none⟩ ∧
      (l.length : Int) = T ∧ List.Sublist l ps.flatten ∧
      ((ps.flatten.map Prod.fst).Nodup → (l.map Prod.fst).Nodup) := by
  obtain ⟨l, hrun, hlen, hsub⟩ :=
    fetch_go_exact server T ps 1 [] fuel hne hserver (by simpa using hsum) hfuel
  rw [List.nil_append] at hsub
  exact ⟨l, hrun, hlen, hsub,
    fun hnd => List.Nodup.sublist (List.Sublist.map Prod.fst hsub) hnd⟩

/-- Witness for the amended C2 at a one-page server with total 1. -/
theorem C2_amended_witness :
    ∃ l, fetch_validators oneServer 1 = .result ⟨true, some l, none⟩ ∧
      (l.length : Int) = 1 ∧ List.Sublist l [[(("A" : String), (10 : Int))]].flatten ∧
      ((([[(("A" : String), (10 : Int))]].flatten).map Prod.fst).Nodup →
        (l.map Prod.fst).Nodup) :=
  C2_amended_exact_total_sublist_of_pages oneServer [[("A", 10)]] 1 1 (by simp)
    (by
      intro i h
      have hi : i = 0 := Nat.lt_one_iff.mp (by simpa using h)
      subst hi
      rfl)
    (by decide) (le_refl 1)

end BlockchainService
